import Mathlib

/-!
Verification development for `src/vs/platform/list/browser/listService.ts`.

The TypeScript module is shallowly embedded: the configuration service is a
map from setting keys to optional string values, widget identity is a natural
number, and each event handler becomes a pure function from its inputs (and
the relevant widget state) to the effects it performs (state updates and the
list of events it fires).
-/

namespace ListServiceSpec

/-- A configuration snapshot: `getValue` of the configuration service, as a
map from setting key to the raw configured value (none when unset). -/
abbrev ConfigData := String → Option String

/-- Setting key `workbench.list.multiSelectModifier` (line 100). -/
def multiSelectModifierSettingKey : String := "workbench.list.multiSelectModifier"

/-- Setting key `workbench.list.openMode` (line 101). -/
def openModeSettingKey : String := "workbench.list.openMode"

/-- `useAltAsMultipleSelectionModifier` (lines 103-105):
`configurationService.getValue(multiSelectModifierSettingKey) === 'alt'`. -/
def useAltAsMultipleSelectionModifier (configurationService : ConfigData) : Bool :=
  configurationService multiSelectModifierSettingKey == some "alt"

/-- `useSingleClickToOpen` (lines 107-109):
`configurationService.getValue(openModeSettingKey) !== 'doubleClick'`. -/
def useSingleClickToOpen (configurationService : ConfigData) : Bool :=
  configurationService openModeSettingKey != some "doubleClick"

/-- The defaults declared by the configuration schema registration
(lines 437-473): `multiSelectModifier` defaults to `ctrlCmd`, `openMode`
defaults to `singleClick`. -/
def defaultListConfiguration : ConfigData := fun key =>
  if key = multiSelectModifierSettingKey then some "ctrlCmd"
  else if key = openModeSettingKey then some "singleClick"
  else none

/-- A UI event as `OpenController.shouldOpen` discriminates it: either a
`MouseEvent` carrying its `detail` click count, or any other `UIEvent`. -/
inductive UIEventShape where
  | mouseEvent (detail : Nat)
  | otherEvent
deriving Repr, DecidableEq

namespace OpenController

/-- `OpenController.shouldOpen` (lines 132-140): a `MouseEvent` opens iff the
single-click-to-open policy is active or `event.detail === 2`; any other
event always opens. -/
def shouldOpen (configurationService : ConfigData) (event : UIEventShape) : Bool :=
  match event with
  | .mouseEvent detail =>
      let isDoubleClick := detail == 2
      useSingleClickToOpen configurationService || isDoubleClick
  | .otherEvent => true

end OpenController

/-- A `multipleSelectionController` option value: either the configuration
backed controller the module installs, or a controller the caller supplied
(identified by an opaque tag). -/
inductive MultipleSelectionControllerValue where
  | configBacked
  | callerSupplied (tag : Nat)
deriving Repr, DecidableEq

/-- An `openController` option value: either the configuration backed
controller the module installs, or a controller the caller supplied. -/
inductive OpenControllerValue where
  | configBacked
  | callerSupplied (tag : Nat)
deriving Repr, DecidableEq

/-- The fields of `IListOptions` that `handleListControllers` touches, plus
an opaque residue standing for every other option field. -/
structure ListOptions where
  multipleSelectionSupport : Option Bool
  multipleSelectionController : Option MultipleSelectionControllerValue
  openController : Option OpenControllerValue
  otherFields : Nat
deriving Repr, DecidableEq

/-- `handleListControllers` (lines 143-151): installs a configuration backed
`MultipleSelectionController` when `multipleSelectionSupport === true` and no
controller was supplied, then unconditionally overwrites `openController`
with a fresh configuration backed `OpenController`. -/
def handleListControllers (options : ListOptions) (_configurationService : ConfigData) :
    ListOptions :=
  let options1 :=
    if options.multipleSelectionSupport == some true
        && options.multipleSelectionController.isNone then
      { options with multipleSelectionController := some .configBacked }
    else options
  { options1 with openController := some .configBacked }

/-! ### The `ListService` focus registry (lines 46-80)

Widgets are identified by natural numbers; `===` identity on widget objects
becomes equality of identifiers (the registry's no-duplicate guard keeps the
two in step). `widget.isDOMFocused()` is an environment parameter. -/

/-- The mutable fields of `ListService`: `lists` (the registered widgets, in
registration order) and `_lastFocusedWidget`. -/
structure ListServiceState where
  lists : List Nat
  lastFocusedWidget : Option Nat
deriving Repr, DecidableEq

/-- A fresh `ListService` (lines 50-51): no registered lists, no last
focused widget. -/
def ListServiceState.initial : ListServiceState := { lists := [], lastFocusedWidget := none }

namespace ListService

/-- `ListService.register` (lines 59-79): throws when the widget is already
registered; otherwise appends the entry and, when the widget reports DOM
focus, makes it the last focused widget. The focus subscription and the
disposal handle are modelled by `focusGained` and `disposeRegistration`. -/
def register (domFocused : Nat → Bool) (widget : Nat) (s : ListServiceState) :
    Except String ListServiceState :=
  if s.lists.any (· == widget) then
    .error "Cannot register the same widget multiple times"
  else
    .ok { lists := s.lists ++ [widget],
          lastFocusedWidget := if domFocused widget then some widget else s.lastFocusedWidget }

/-- The `onDidFocus` subscription installed by `register` (line 74):
`this._lastFocusedWidget = widget`, unconditionally. -/
def focusGained (widget : Nat) (s : ListServiceState) : ListServiceState :=
  { s with lastFocusedWidget := some widget }

/-- The disposal handle returned by `register` (lines 73-76):
`this.lists.splice(this.lists.indexOf(registeredList), 1)`. When the entry is
present, splicing at its index removes its first occurrence; when it is
absent (the handle already ran), `indexOf` is `-1` and `splice(-1, 1)`
removes the last entry. `_lastFocusedWidget` is never touched. -/
def disposeRegistration (widget : Nat) (s : ListServiceState) : ListServiceState :=
  if s.lists.any (· == widget) then { s with lists := s.lists.erase widget }
  else { s with lists := s.lists.dropLast }

end ListService

/-- An externally driven interaction with the `ListService`: a `register`
call, an invocation of a registration's disposal handle, or a widget's
focus-gained event. -/
inductive ListServiceOp where
  | registerOp (widget : Nat)
  | disposeOp (widget : Nat)
  | focusOp (widget : Nat)
deriving Repr, DecidableEq

/-- One interaction step. A throwing `register` leaves the state unchanged;
a focus event only reaches the service while the widget's `onDidFocus`
subscription is alive, i.e. while the widget is registered. -/
def listServiceStep (domFocused : Nat → Bool) (s : ListServiceState) :
    ListServiceOp → ListServiceState
  | .registerOp w =>
      match ListService.register domFocused w s with
      | .ok s1 => s1
      | .error _ => s
  | .disposeOp w => ListService.disposeRegistration w s
  | .focusOp w => if s.lists.any (· == w) then ListService.focusGained w s else s

/-- Run a sequence of interactions from the fresh service. -/
def listServiceRun (domFocused : Nat → Bool) (ops : List ListServiceOp) : ListServiceState :=
  ops.foldl (listServiceStep domFocused) ListServiceState.initial

/-! ### Enhanced widget wrappers: cached policy fields and context keys -/

/-- The context key state the wrappers publish; `listDoubleSelection` is the
`WorkbenchListDoubleSelection` raw context key (line 85, default false). -/
structure WorkbenchContextFlags where
  listDoubleSelection : Bool
deriving Repr, DecidableEq

namespace WorkbenchList

/-- The `onSelectionChange` subscription installed by the `WorkbenchList`
constructor (line 182):
`this.listDoubleSelection.set(this.getSelection().length === 2)`. -/
def selectionChangeUpdate {α : Type} (selection : List α) (ctx : WorkbenchContextFlags) :
    WorkbenchContextFlags :=
  { ctx with listDoubleSelection := selection.length == 2 }

end WorkbenchList

namespace WorkbenchPagedList

/-- The `WorkbenchPagedList` constructor (lines 209-232) registers no
selection-change subscription and never binds the double-selection context
key, so a selection-change event performs no context update. -/
def selectionChangeUpdate {α : Type} (_selection : List α) (ctx : WorkbenchContextFlags) :
    WorkbenchContextFlags :=
  ctx

end WorkbenchPagedList

/-- The policy fields `WorkbenchTree` caches: `_openOnSingleClick` and
`_useAltAsMultipleSelectionModifier` (lines 259-260). -/
structure WorkbenchTreeCachedPolicy where
  openOnSingleClick : Bool
  useAltAsMultipleSelectionModifier : Bool
deriving Repr, DecidableEq

namespace WorkbenchTree

/-- The `onDidChangeSelection` subscription installed by
`WorkbenchTree.registerListeners` (lines 297-300):
`this.listDoubleSelection.set(selection && selection.length === 2)`, where a
null selection is falsy. -/
def selectionChangeUpdate {α : Type} (selection : Option (List α))
    (ctx : WorkbenchContextFlags) : WorkbenchContextFlags :=
  { ctx with listDoubleSelection :=
      match selection with
      | some s => s.length == 2
      | none => false }

/-- The `onDidChangeConfiguration` subscription installed by
`WorkbenchTree.registerListeners` (lines 302-310): recompute
`_openOnSingleClick` when the notification affects `openModeSettingKey`, and
`_useAltAsMultipleSelectionModifier` when it affects
`multiSelectModifierSettingKey`. `affectsConfiguration` is the
notification's affected-key predicate. -/
def configurationChangeUpdate (configurationService : ConfigData)
    (affectsConfiguration : String → Bool) (st : WorkbenchTreeCachedPolicy) :
    WorkbenchTreeCachedPolicy :=
  let st1 :=
    if affectsConfiguration openModeSettingKey then
      { st with openOnSingleClick := useSingleClickToOpen configurationService }
    else st
  if affectsConfiguration multiSelectModifierSettingKey then
    { st1 with useAltAsMultipleSelectionModifier :=
        useAltAsMultipleSelectionModifier configurationService }
  else st1

end WorkbenchTree

/-! ### `ResourceResultsNavigation` (lines 363-433)

Event payloads are duck typed in the source (`payload: any`); the embedding
gives them the shape the handlers inspect, every field optional, with an
absent boolean field read as false (JS falsiness of `undefined`). -/

/-- The fields of `payload.originalEvent` the handlers read: `detail`
(click count) and the three modifier key flags. -/
structure OriginalEvent where
  detail : Nat
  ctrlKey : Bool
  metaKey : Bool
  altKey : Bool
deriving Repr, DecidableEq

/-- The fields of a focus/selection event payload the handlers read. -/
structure Payload where
  origin : Option String
  originalEvent : Option OriginalEvent
  fromFocus : Bool
  preserveFocus : Bool
  focusEditor : Bool
deriving Repr, DecidableEq

/-- `payload && payload.originalEvent` (lines 386, 409). -/
def payloadOriginalEvent (payload : Option Payload) : Option OriginalEvent :=
  match payload with
  | some p => p.originalEvent
  | none => none

/-- `payload && payload.origin === 'mouse'` (lines 387, 410). -/
def payloadIsMouseEvent (payload : Option Payload) : Bool :=
  match payload with
  | some p => p.origin == some "mouse"
  | none => false

/-- `isMouseEvent && originalEvent && originalEvent.detail === 2`
(lines 388, 411). -/
def payloadIsDoubleClick (payload : Option Payload) : Bool :=
  payloadIsMouseEvent payload &&
    (match payloadOriginalEvent payload with
     | some e => e.detail == 2
     | none => false)

/-- `payload && payload.fromFocus` (line 405). -/
def payloadFromFocus (payload : Option Payload) : Bool :=
  match payload with
  | some p => p.fromFocus
  | none => false

/-- `payload && payload.origin === 'keyboard'` (line 418). -/
def payloadIsFromKeyboard (payload : Option Payload) : Bool :=
  match payload with
  | some p => p.origin == some "keyboard"
  | none => false

/-- `!payload || !payload.preserveFocus` (line 420). -/
def payloadLacksPreserveFocus (payload : Option Payload) : Bool :=
  match payload with
  | some p => !p.preserveFocus
  | none => true

/-- `payload && payload.focusEditor` (line 420). -/
def payloadFocusEditor (payload : Option Payload) : Bool :=
  match payload with
  | some p => p.focusEditor
  | none => false

/-- `originalEvent && (originalEvent.ctrlKey || originalEvent.metaKey ||
originalEvent.altKey)` (line 419). -/
def payloadSideBySide (payload : Option Payload) : Bool :=
  match payloadOriginalEvent payload with
  | some e => e.ctrlKey || e.metaKey || e.altKey
  | none => false

/-- `IEditorOptions` as the adapter fills it (lines 352-357, 391-396,
421-426). -/
structure EditorOptions where
  preserveFocus : Bool
  pinned : Bool
  revealIfVisible : Bool
deriving Repr, DecidableEq

/-- `IOpenResourceOptions`: the Open Intent fired on `openResource`
(lines 352-357). `element` is optional because `getFocus()` /
`getSelection()[0]` can be absent. -/
structure OpenResourceOptions (α : Type) where
  editorOptions : EditorOptions
  sideBySide : Bool
  element : Option α
  payload : Option Payload
deriving Repr, DecidableEq

/-- The payload literal `{ fromFocus: true }` passed to `setSelection`
(line 384): only `fromFocus` is present, every other field absent. -/
def fromFocusPayload : Payload :=
  { origin := none, originalEvent := none, fromFocus := true,
    preserveFocus := false, focusEditor := false }

namespace ResourceResultsNavigation

/-- The effects of one `onFocus` run: the selection forced on the tree, the
payload tagged onto that programmatic selection, and the Open Intents fired
(in order). -/
structure FocusEffect (α : Type) where
  selectionSet : List α
  selectionPayload : Payload
  fired : List (OpenResourceOptions α)
deriving Repr, DecidableEq

/-- `ResourceResultsNavigation.onFocus` (lines 382-402): force the selection
to the focused element tagged `{ fromFocus: true }`; then, unless the event
is mouse-origin without open-on-single-click and without a double click,
fire one Open Intent with `preserveFocus: true, pinned: false,
revealIfVisible: true, sideBySide: false`. -/
def onFocus {α : Type} (openOnSingleClick : Bool) (element : α)
    (payload : Option Payload) : FocusEffect α :=
  let isMouseEvent := payloadIsMouseEvent payload
  let isDoubleClick := payloadIsDoubleClick payload
  { selectionSet := [element],
    selectionPayload := fromFocusPayload,
    fired :=
      if !isMouseEvent || openOnSingleClick || isDoubleClick then
        [{ editorOptions := { preserveFocus := true, pinned := false, revealIfVisible := true },
           sideBySide := false,
           element := some element,
           payload := payload }]
      else [] }

/-- The effects of one `onSelection` run: whether `preventDefault` was
called on the originating event, and the Open Intents fired (in order). -/
structure SelectionEffect (α : Type) where
  preventDefaultCalled : Bool
  fired : List (OpenResourceOptions α)
deriving Repr, DecidableEq

/-- `ResourceResultsNavigation.onSelection` (lines 404-432): return early on
the `fromFocus` marker; otherwise, when the open gate passes, suppress the
originating event's default on a double click and fire one Open Intent with
the derived `preserveFocus`, `pinned` and `sideBySide` flags, carrying the
first selected element. -/
def onSelection {α : Type} (openOnSingleClick : Bool) (selection : List α)
    (payload : Option Payload) : SelectionEffect α :=
  if payloadFromFocus payload then
    { preventDefaultCalled := false, fired := [] }
  else
    let originalEvent := payloadOriginalEvent payload
    let isMouseEvent := payloadIsMouseEvent payload
    let isDoubleClick := payloadIsDoubleClick payload
    if !isMouseEvent || openOnSingleClick || isDoubleClick then
      let isFromKeyboard := payloadIsFromKeyboard payload
      let sideBySide := payloadSideBySide payload
      let preserveFocus :=
        !((isFromKeyboard && payloadLacksPreserveFocus payload) || isDoubleClick
          || payloadFocusEditor payload)
      { preventDefaultCalled := isDoubleClick && originalEvent.isSome,
        fired :=
          [{ editorOptions :=
               { preserveFocus := preserveFocus, pinned := isDoubleClick,
                 revealIfVisible := true },
             sideBySide := sideBySide,
             element := selection.head?,
             payload := payload }] }
    else
      { preventDefaultCalled := false, fired := [] }

end ResourceResultsNavigation

/-! ### Spec vocabulary

The spec describes payloads in terms of the gestures they encode. These
predicates state those descriptions directly over the payload shape, so the
theorems below relate the handlers' truthy-chain computations to them. -/

/-- The event originated from the mouse: the payload is present with
`origin = "mouse"`. -/
def OriginIsMouse (payload : Option Payload) : Prop :=
  ∃ p, payload = some p ∧ p.origin = some "mouse"

/-- The event originated from the keyboard: the payload is present with
`origin = "keyboard"`. -/
def OriginIsKeyboard (payload : Option Payload) : Prop :=
  ∃ p, payload = some p ∧ p.origin = some "keyboard"

/-- The event is a mouse double click: mouse origin with an originating
event whose click count is 2. -/
def IsMouseDoubleClick (payload : Option Payload) : Prop :=
  ∃ p e, payload = some p ∧ p.origin = some "mouse" ∧ p.originalEvent = some e ∧ e.detail = 2

/-- Ctrl, cmd/meta, or alt was held on the originating event. -/
def ModifierKeyHeld (payload : Option Payload) : Prop :=
  ∃ p e, payload = some p ∧ p.originalEvent = some e ∧
    (e.ctrlKey = true ∨ e.metaKey = true ∨ e.altKey = true)

/-- The payload carries the from-focus marker. -/
def CarriesFromFocusMarker (payload : Option Payload) : Prop :=
  ∃ p, payload = some p ∧ p.fromFocus = true

/-- An explicit preserve-focus instruction was supplied on the payload. -/
def PreserveFocusSupplied (payload : Option Payload) : Prop :=
  ∃ p, payload = some p ∧ p.preserveFocus = true

/-- An explicit focus-editor instruction was supplied on the payload. -/
def FocusEditorSupplied (payload : Option Payload) : Prop :=
  ∃ p, payload = some p ∧ p.focusEditor = true

lemma payloadIsMouseEvent_iff (payload : Option Payload) :
    payloadIsMouseEvent payload = true ↔ OriginIsMouse payload := by
  cases payload <;> simp [payloadIsMouseEvent, OriginIsMouse]

lemma payloadIsFromKeyboard_iff (payload : Option Payload) :
    payloadIsFromKeyboard payload = true ↔ OriginIsKeyboard payload := by
  cases payload <;> simp [payloadIsFromKeyboard, OriginIsKeyboard]

lemma payloadIsDoubleClick_iff (payload : Option Payload) :
    payloadIsDoubleClick payload = true ↔ IsMouseDoubleClick payload := by
  cases payload with
  | none => simp [payloadIsDoubleClick, payloadIsMouseEvent, payloadOriginalEvent,
      IsMouseDoubleClick]
  | some p =>
      cases he : p.originalEvent <;>
        simp [payloadIsDoubleClick, payloadIsMouseEvent, payloadOriginalEvent,
          IsMouseDoubleClick, he, and_assoc]

lemma payloadSideBySide_iff (payload : Option Payload) :
    payloadSideBySide payload = true ↔ ModifierKeyHeld payload := by
  cases payload with
  | none => simp [payloadSideBySide, payloadOriginalEvent, ModifierKeyHeld]
  | some p =>
      cases he : p.originalEvent <;>
        simp [payloadSideBySide, payloadOriginalEvent, ModifierKeyHeld, he, or_assoc]

lemma payloadFromFocus_iff (payload : Option Payload) :
    payloadFromFocus payload = true ↔ CarriesFromFocusMarker payload := by
  cases payload <;> simp [payloadFromFocus, CarriesFromFocusMarker]

lemma payloadLacksPreserveFocus_iff (payload : Option Payload) :
    payloadLacksPreserveFocus payload = true ↔ ¬ PreserveFocusSupplied payload := by
  cases payload <;> simp [payloadLacksPreserveFocus, PreserveFocusSupplied]

lemma payloadFocusEditor_iff (payload : Option Payload) :
    payloadFocusEditor payload = true ↔ FocusEditorSupplied payload := by
  cases payload <;> simp [payloadFocusEditor, FocusEditorSupplied]

lemma payloadIsDoubleClick_originalEvent_isSome (payload : Option Payload) :
    (payloadIsDoubleClick payload && (payloadOriginalEvent payload).isSome)
      = payloadIsDoubleClick payload := by
  cases payload with
  | none => rfl
  | some p => cases he : p.originalEvent <;>
      simp [payloadIsDoubleClick, payloadOriginalEvent, he]

/-! ### Theorems -/

/-- Claim C1: every selection-change event without the from-focus marker
that passes the open gate (non-mouse origin, or open-on-single-click active,
or double click) makes the adapter emit exactly one Open Intent whose
`pinned` flag is true iff the event is a mouse double click (in which case
the originating event's default action is also suppressed), whose
`sideBySide` flag is true iff ctrl, cmd/meta, or alt was held on the
originating event, whose `preserveFocus` flag is false exactly when (the
event originated from the keyboard and no explicit preserve-focus
instruction was supplied) or it was a double click or an explicit
focus-editor instruction was supplied, and whose element is the first
currently selected element. -/
theorem onSelection_c1 {α : Type} (openOnSingleClick : Bool) (selection : List α)
    (payload : Option Payload)
    (hmarker : ¬ CarriesFromFocusMarker payload)
    (hgate : ¬ OriginIsMouse payload ∨ openOnSingleClick = true ∨ IsMouseDoubleClick payload) :
    ∃ intent : OpenResourceOptions α,
      (ResourceResultsNavigation.onSelection openOnSingleClick selection payload).fired
          = [intent]
      ∧ (intent.editorOptions.pinned = true ↔ IsMouseDoubleClick payload)
      ∧ ((ResourceResultsNavigation.onSelection openOnSingleClick selection
            payload).preventDefaultCalled = true ↔ IsMouseDoubleClick payload)
      ∧ (intent.sideBySide = true ↔ ModifierKeyHeld payload)
      ∧ (intent.editorOptions.preserveFocus = false ↔
          ((OriginIsKeyboard payload ∧ ¬ PreserveFocusSupplied payload)
            ∨ IsMouseDoubleClick payload ∨ FocusEditorSupplied payload))
      ∧ intent.editorOptions.revealIfVisible = true
      ∧ intent.element = selection.head?
      ∧ intent.payload = payload := by
  have hm : payloadFromFocus payload = false := by
    cases hb : payloadFromFocus payload with
    | false => rfl
    | true => exact absurd ((payloadFromFocus_iff payload).mp hb) hmarker
  have hg : (!payloadIsMouseEvent payload || openOnSingleClick
      || payloadIsDoubleClick payload) = true := by
    rcases hgate with h | h | h
    · have hb : payloadIsMouseEvent payload = false := by
        cases hb : payloadIsMouseEvent payload with
        | false => rfl
        | true => exact absurd ((payloadIsMouseEvent_iff payload).mp hb) h
      simp [hb]
    · simp [h]
    · simp [(payloadIsDoubleClick_iff payload).mpr h]
  have hsel : ResourceResultsNavigation.onSelection openOnSingleClick selection payload =
      { preventDefaultCalled :=
          payloadIsDoubleClick payload && (payloadOriginalEvent payload).isSome,
        fired :=
          [{ editorOptions :=
               { preserveFocus :=
                   !((payloadIsFromKeyboard payload && payloadLacksPreserveFocus payload)
                     || payloadIsDoubleClick payload || payloadFocusEditor payload),
                 pinned := payloadIsDoubleClick payload,
                 revealIfVisible := true },
             sideBySide := payloadSideBySide payload,
             element := selection.head?,
             payload := payload }] } := by
    simp [ResourceResultsNavigation.onSelection, hm, hg]
  refine ⟨_, congrArg ResourceResultsNavigation.SelectionEffect.fired hsel, ?_, ?_, ?_, ?_,
    rfl, rfl, rfl⟩
  · exact payloadIsDoubleClick_iff payload
  · rw [hsel]
    show (payloadIsDoubleClick payload && (payloadOriginalEvent payload).isSome) = true
        ↔ IsMouseDoubleClick payload
    rw [payloadIsDoubleClick_originalEvent_isSome]
    exact payloadIsDoubleClick_iff payload
  · exact payloadSideBySide_iff payload
  · show (!((payloadIsFromKeyboard payload && payloadLacksPreserveFocus payload)
        || payloadIsDoubleClick payload || payloadFocusEditor payload)) = false ↔ _
    rw [Bool.not_eq_false']
    simp only [Bool.or_eq_true, Bool.and_eq_true, payloadIsFromKeyboard_iff,
      payloadLacksPreserveFocus_iff, payloadIsDoubleClick_iff, payloadFocusEditor_iff,
      or_assoc]

/-- A concrete selection-change payload: a ctrl-held mouse double click. -/
def c1WitnessPayload : Payload :=
  { origin := some "mouse",
    originalEvent := some { detail := 2, ctrlKey := true, metaKey := false, altKey := false },
    fromFocus := false, preserveFocus := false, focusEditor := false }

/-- Claim C1 witness: the theorem applied to a ctrl-held mouse double click
on selection `[5, 7]` with open-on-single-click inactive. -/
theorem onSelection_c1_witness :
    ∃ intent : OpenResourceOptions Nat,
      (ResourceResultsNavigation.onSelection false ([5, 7] : List Nat)
          (some c1WitnessPayload)).fired = [intent]
      ∧ (intent.editorOptions.pinned = true ↔ IsMouseDoubleClick (some c1WitnessPayload))
      ∧ ((ResourceResultsNavigation.onSelection false ([5, 7] : List Nat)
            (some c1WitnessPayload)).preventDefaultCalled = true
          ↔ IsMouseDoubleClick (some c1WitnessPayload))
      ∧ (intent.sideBySide = true ↔ ModifierKeyHeld (some c1WitnessPayload))
      ∧ (intent.editorOptions.preserveFocus = false ↔
          ((OriginIsKeyboard (some c1WitnessPayload)
              ∧ ¬ PreserveFocusSupplied (some c1WitnessPayload))
            ∨ IsMouseDoubleClick (some c1WitnessPayload)
            ∨ FocusEditorSupplied (some c1WitnessPayload)))
      ∧ intent.editorOptions.revealIfVisible = true
      ∧ intent.element = ([5, 7] : List Nat).head?
      ∧ intent.payload = some c1WitnessPayload :=
  onSelection_c1 false [5, 7] (some c1WitnessPayload)
    (by simp [CarriesFromFocusMarker, c1WitnessPayload])
    (Or.inr (Or.inr ⟨c1WitnessPayload, ⟨2, true, false, false⟩, rfl, rfl, rfl, rfl⟩))

/-- Claim C2: every focus-change event forces the tree's selection to
exactly the focused element, tagged with the from-focus marker; every
selection-change event carrying that marker produces no Open Intent (in
particular the one the forced selection itself triggers); and the focus
handler emits exactly one Open Intent with `preserveFocus := true`,
`pinned := false`, `revealIfVisible := true`, `sideBySide := false`
precisely when the event is not mouse-origin, or open-on-single-click is
active, or it is a double click — so one user gesture never fires two Open
Intents. -/
theorem onFocus_c2 {α : Type} (openOnSingleClick : Bool) (element : α)
    (payload : Option Payload) (selection : List α) :
    (ResourceResultsNavigation.onFocus openOnSingleClick element payload).selectionSet
        = [element]
    ∧ CarriesFromFocusMarker (some (ResourceResultsNavigation.onFocus openOnSingleClick
        element payload).selectionPayload)
    ∧ (∀ q : Payload, q.fromFocus = true →
        ResourceResultsNavigation.onSelection openOnSingleClick selection (some q)
          = { preventDefaultCalled := false, fired := [] })
    ∧ (ResourceResultsNavigation.onSelection openOnSingleClick selection
        (some (ResourceResultsNavigation.onFocus openOnSingleClick element
          payload).selectionPayload)).fired = []
    ∧ ((¬ OriginIsMouse payload ∨ openOnSingleClick = true ∨ IsMouseDoubleClick payload) ↔
        (ResourceResultsNavigation.onFocus openOnSingleClick element payload).fired =
          [{ editorOptions :=
               { preserveFocus := true, pinned := false, revealIfVisible := true },
             sideBySide := false, element := some element, payload := payload }])
    ∧ (ResourceResultsNavigation.onFocus openOnSingleClick element payload).fired.length
        ≤ 1 := by
  refine ⟨rfl, ⟨fromFocusPayload, rfl, rfl⟩, ?_, ?_, ?_, ?_⟩
  · intro q hq
    simp [ResourceResultsNavigation.onSelection, payloadFromFocus, hq]
  · rfl
  · constructor
    · intro hgate
      have hg : (!payloadIsMouseEvent payload || openOnSingleClick
          || payloadIsDoubleClick payload) = true := by
        rcases hgate with h | h | h
        · have hb : payloadIsMouseEvent payload = false := by
            cases hb : payloadIsMouseEvent payload with
            | false => rfl
            | true => exact absurd ((payloadIsMouseEvent_iff payload).mp hb) h
          simp [hb]
        · simp [h]
        · simp [(payloadIsDoubleClick_iff payload).mpr h]
      simp [ResourceResultsNavigation.onFocus, hg]
    · intro hf
      by_contra hng
      push_neg at hng
      obtain ⟨hmouse, hsingle, hdouble⟩ := hng
      have h1 : payloadIsMouseEvent payload = true := (payloadIsMouseEvent_iff payload).mpr hmouse
      have h2 : openOnSingleClick = false := by
        cases openOnSingleClick with
        | false => rfl
        | true => exact absurd rfl hsingle
      have h3 : payloadIsDoubleClick payload = false := by
        cases hb : payloadIsDoubleClick payload with
        | false => rfl
        | true => exact absurd ((payloadIsDoubleClick_iff payload).mp hb) hdouble
      have : (ResourceResultsNavigation.onFocus openOnSingleClick element payload).fired
          = [] := by
        simp [ResourceResultsNavigation.onFocus, h1, h2, h3]
      rw [this] at hf
      exact List.noConfusion hf
  · cases hgb : (!payloadIsMouseEvent payload || openOnSingleClick
        || payloadIsDoubleClick payload) <;>
      simp [ResourceResultsNavigation.onFocus, hgb]

/-- A concrete focus payload: a single-click mouse focus event. -/
def c2WitnessPayload : Payload :=
  { origin := some "mouse",
    originalEvent := some { detail := 1, ctrlKey := false, metaKey := false, altKey := false },
    fromFocus := false, preserveFocus := false, focusEditor := false }

/-- Claim C2 witness: the theorem applied to a single-click mouse focus
event with open-on-single-click active; the marker-carrying follow-up
selection event produces no intent, and the focus handler emits the single
`preserveFocus`/non-pinned intent. -/
theorem onFocus_c2_witness :
    ResourceResultsNavigation.onSelection true ([3] : List Nat) (some fromFocusPayload)
        = { preventDefaultCalled := false, fired := [] }
    ∧ (ResourceResultsNavigation.onFocus true (3 : Nat) (some c2WitnessPayload)).fired =
        [{ editorOptions := { preserveFocus := true, pinned := false, revealIfVisible := true },
           sideBySide := false, element := some 3, payload := some c2WitnessPayload }] :=
  ⟨(onFocus_c2 true (3 : Nat) none ([3] : List Nat)).2.2.1 fromFocusPayload rfl,
   (onFocus_c2 true (3 : Nat) (some c2WitnessPayload)
      ([3] : List Nat)).2.2.2.2.1.mp (Or.inr (Or.inl rfl))⟩

/-- Claim C3: `shouldOpen` accepts every non-mouse event; it accepts a
mouse event iff the single-click-to-open policy is active or the click
count equals 2; a double click is never rejected regardless of the
configured open mode; and under `openMode = "doubleClick"` a single-click
mouse event is rejected. -/
theorem shouldOpen_c3 (configurationService : ConfigData) :
    OpenController.shouldOpen configurationService .otherEvent = true
    ∧ (∀ detail : Nat,
        OpenController.shouldOpen configurationService (.mouseEvent detail) = true
          ↔ (useSingleClickToOpen configurationService = true ∨ detail = 2))
    ∧ OpenController.shouldOpen configurationService (.mouseEvent 2) = true
    ∧ (configurationService openModeSettingKey = some "doubleClick" →
        OpenController.shouldOpen configurationService (.mouseEvent 1) = false) := by
  refine ⟨rfl, ?_, ?_, ?_⟩
  · intro detail
    simp [OpenController.shouldOpen]
  · simp [OpenController.shouldOpen]
  · intro h
    simp [OpenController.shouldOpen, useSingleClickToOpen, h]

/-- The configuration snapshot with `workbench.list.openMode` set to
`doubleClick` and everything else unset. -/
def doubleClickConfiguration : ConfigData := fun key =>
  if key = openModeSettingKey then some "doubleClick" else none

/-- Claim C3 witness: under `openMode = "doubleClick"`, a single click is
rejected while a double click is accepted. -/
theorem shouldOpen_c3_witness :
    OpenController.shouldOpen doubleClickConfiguration (.mouseEvent 1) = false
    ∧ OpenController.shouldOpen doubleClickConfiguration (.mouseEvent 2) = true :=
  ⟨(shouldOpen_c3 doubleClickConfiguration).2.2.2 (by simp [doubleClickConfiguration]),
   (shouldOpen_c3 doubleClickConfiguration).2.2.1⟩

/-- Claim C4: the multi-select-modifier policy query returns true iff
`workbench.list.multiSelectModifier` equals `alt` (false under the default
`ctrlCmd`), and the single-click-to-open policy query returns true iff
`workbench.list.openMode` is not `doubleClick` (true under the default
`singleClick`). Both queries are plain functions of the configuration
snapshot, so they have no side effects on any state. -/
theorem modifierPolicy_c4 (configurationService : ConfigData) :
    (useAltAsMultipleSelectionModifier configurationService = true
      ↔ configurationService multiSelectModifierSettingKey = some "alt")
    ∧ (useSingleClickToOpen configurationService = true
      ↔ configurationService openModeSettingKey ≠ some "doubleClick")
    ∧ useAltAsMultipleSelectionModifier defaultListConfiguration = false
    ∧ useSingleClickToOpen defaultListConfiguration = true := by
  refine ⟨?_, ?_, ?_, ?_⟩
  · simp [useAltAsMultipleSelectionModifier]
  · simp [useSingleClickToOpen]
  · simp [useAltAsMultipleSelectionModifier, defaultListConfiguration,
      multiSelectModifierSettingKey]
  · simp [useSingleClickToOpen, defaultListConfiguration, openModeSettingKey,
      multiSelectModifierSettingKey]

/-- Claim C8: the tree's configuration-change handler recomputes the cached
open-on-single-click field exactly when the notification affects
`workbench.list.openMode`, recomputes the cached alt-as-multi-select field
exactly when it affects `workbench.list.multiSelectModifier`, and a
notification affecting neither key (whatever other keys, including ones
sharing a prefix or substring, it may affect) changes neither cached
field. -/
theorem treeConfigurationChange_c8 (configurationService : ConfigData)
    (affectsConfiguration : String → Bool) (st : WorkbenchTreeCachedPolicy) :
    ((WorkbenchTree.configurationChangeUpdate configurationService affectsConfiguration
          st).openOnSingleClick =
        if affectsConfiguration openModeSettingKey then
          useSingleClickToOpen configurationService
        else st.openOnSingleClick)
    ∧ ((WorkbenchTree.configurationChangeUpdate configurationService affectsConfiguration
          st).useAltAsMultipleSelectionModifier =
        if affectsConfiguration multiSelectModifierSettingKey then
          useAltAsMultipleSelectionModifier configurationService
        else st.useAltAsMultipleSelectionModifier)
    ∧ (affectsConfiguration openModeSettingKey = false →
        affectsConfiguration multiSelectModifierSettingKey = false →
        WorkbenchTree.configurationChangeUpdate configurationService affectsConfiguration st
          = st) := by
  cases h1 : affectsConfiguration openModeSettingKey <;>
    cases h2 : affectsConfiguration multiSelectModifierSettingKey <;>
      simp [WorkbenchTree.configurationChangeUpdate, h1, h2]

/-- Claim C8 witness: a notification affecting no key leaves the cached
policy snapshot unchanged. -/
theorem treeConfigurationChange_c8_witness :
    WorkbenchTree.configurationChangeUpdate defaultListConfiguration (fun _ => false)
        { openOnSingleClick := true, useAltAsMultipleSelectionModifier := false }
      = { openOnSingleClick := true, useAltAsMultipleSelectionModifier := false } :=
  (treeConfigurationChange_c8 defaultListConfiguration (fun _ => false)
    { openOnSingleClick := true, useAltAsMultipleSelectionModifier := false }).2.2 rfl rfl

/-- Claim C9 counterexample: the paged-list wrapper registers no
selection-change subscription, so after a selection change with selection
size 2 its double-selection context flag is still false. -/
theorem doubleSelection_c9_counterexample :
    (WorkbenchPagedList.selectionChangeUpdate ([0, 1] : List Nat)
        { listDoubleSelection := false }).listDoubleSelection = false
    ∧ ([0, 1] : List Nat).length = 2 :=
  ⟨rfl, rfl⟩

/-- Claim C9, amended: the list and tree wrappers subscribe to their own
selection-change event and set `listDoubleSelection` to true exactly when
the current selection size equals 2 (the tree treating a null selection as
not a double selection); the paged-list wrapper registers no
selection-change subscription and leaves the context unchanged. -/
theorem doubleSelection_c9_amended {α : Type} (selection : List α)
    (ctx : WorkbenchContextFlags) :
    ((WorkbenchList.selectionChangeUpdate selection ctx).listDoubleSelection = true
      ↔ selection.length = 2)
    ∧ ((WorkbenchTree.selectionChangeUpdate (some selection) ctx).listDoubleSelection = true
      ↔ selection.length = 2)
    ∧ (WorkbenchTree.selectionChangeUpdate (none : Option (List α)) ctx).listDoubleSelection
        = false
    ∧ WorkbenchPagedList.selectionChangeUpdate selection ctx = ctx := by
  refine ⟨?_, ?_, rfl, rfl⟩ <;>
    simp [WorkbenchList.selectionChangeUpdate, WorkbenchTree.selectionChangeUpdate]

/-- Claim C10: `handleListControllers` unconditionally replaces the
`openController` option with a fresh configuration-backed open controller,
installs a configuration-backed multiple-selection controller only when
`multipleSelectionSupport` is exactly `true` and no controller was already
supplied, and returns every other option field unchanged. -/
theorem handleListControllers_c10 (options : ListOptions)
    (configurationService : ConfigData) :
    (handleListControllers options configurationService).openController
        = some OpenControllerValue.configBacked
    ∧ (handleListControllers options configurationService).multipleSelectionController =
        (if options.multipleSelectionSupport = some true
            ∧ options.multipleSelectionController = none
         then some MultipleSelectionControllerValue.configBacked
         else options.multipleSelectionController)
    ∧ (handleListControllers options configurationService).multipleSelectionSupport
        = options.multipleSelectionSupport
    ∧ (handleListControllers options configurationService).otherFields
        = options.otherFields := by
  obtain ⟨ms, mc, oc, other⟩ := options
  cases mc with
  | some c => simp [handleListControllers]
  | none =>
      cases ms with
      | none => simp [handleListControllers]
      | some b => cases b <;> simp [handleListControllers]

lemma mem_imp_any_beq {w : Nat} {l : List Nat} (hw : w ∈ l) :
    l.any (· == w) = true := by
  simp only [List.any_eq_true, beq_iff_eq]
  exact ⟨w, hw, rfl⟩

lemma not_mem_imp_any_beq {w : Nat} {l : List Nat} (hw : w ∉ l) :
    l.any (· == w) = false := by
  simp only [List.any_eq_false, beq_iff_eq]
  intro x hx he
  exact hw (he ▸ hx)

lemma listServiceStep_nodup (domFocused : Nat → Bool) (s : ListServiceState)
    (op : ListServiceOp) (h : s.lists.Nodup) :
    (listServiceStep domFocused s op).lists.Nodup := by
  cases op with
  | registerOp w =>
      simp only [listServiceStep]
      cases hr : ListService.register domFocused w s with
      | error e => exact h
      | ok s1 =>
          unfold ListService.register at hr
          by_cases hc : s.lists.any (· == w) = true
          · rw [if_pos hc] at hr
            exact absurd hr (by simp)
          · rw [if_neg hc] at hr
            have hw : w ∉ s.lists := by
              intro hmem
              exact hc (mem_imp_any_beq hmem)
            have hs1 : s1.lists = s.lists ++ [w] := by
              cases hr
              rfl
            rw [hs1]
            simp [List.nodup_append, h, hw]
  | disposeOp w =>
      simp only [listServiceStep, ListService.disposeRegistration]
      split
      · exact h.erase w
      · exact List.Nodup.sublist (List.dropLast_sublist _) h
  | focusOp w =>
      simp only [listServiceStep]
      split
      · exact h
      · exact h

/-- Claim C5: over every sequence of register, dispose and focus
interactions the registry never holds two entries for the same widget at
once, and `register` on a currently registered widget throws (producing no
new state, so the registry and the last-focused reference are unchanged on
that error). -/
theorem listService_register_c5 (domFocused : Nat → Bool) (ops : List ListServiceOp)
    (w : Nat) (s : ListServiceState) :
    (listServiceRun domFocused ops).lists.Nodup
    ∧ (w ∈ s.lists →
        ListService.register domFocused w s
          = Except.error "Cannot register the same widget multiple times") := by
  constructor
  · have h : ∀ (l : List ListServiceOp) (t : ListServiceState), t.lists.Nodup →
        (l.foldl (listServiceStep domFocused) t).lists.Nodup := by
      intro l
      induction l with
      | nil => intro t ht; exact ht
      | cons op tl ih =>
          intro t ht
          exact ih _ (listServiceStep_nodup domFocused t op ht)
    exact h ops ListServiceState.initial (by simp [ListServiceState.initial])
  · intro hw
    unfold ListService.register
    rw [if_pos (mem_imp_any_beq hw)]

/-- Claim C5 witness: a run that registers, disposes and re-registers keeps
the registry duplicate free, and registering the already registered widget
1 throws. -/
theorem listService_register_c5_witness :
    (listServiceRun (fun _ => false)
        [.registerOp 1, .registerOp 1, .focusOp 1, .disposeOp 1, .registerOp 2,
         .registerOp 1]).lists.Nodup
    ∧ ListService.register (fun _ => false) 1 { lists := [1], lastFocusedWidget := none }
        = Except.error "Cannot register the same widget multiple times" :=
  ⟨(listService_register_c5 (fun _ => false)
      [.registerOp 1, .registerOp 1, .focusOp 1, .disposeOp 1, .registerOp 2, .registerOp 1]
      1 { lists := [1], lastFocusedWidget := none }).1,
   (listService_register_c5 (fun _ => false)
      [.registerOp 1, .registerOp 1, .focusOp 1, .disposeOp 1, .registerOp 2, .registerOp 1]
      1 { lists := [1], lastFocusedWidget := none }).2 (by simp)⟩

/-- Claim C6: a widget that reports DOM focus at the moment `register` is
called immediately becomes the last-focused widget, and thereafter every
focus-gained event from a registered widget unconditionally overwrites the
last-focused reference. -/
theorem listService_focus_c6 (domFocused : Nat → Bool) (w : Nat)
    (s s1 : ListServiceState) :
    (domFocused w = true → ListService.register domFocused w s = .ok s1 →
      s1.lastFocusedWidget = some w)
    ∧ (ListService.focusGained w s).lastFocusedWidget = some w
    ∧ (w ∈ s.lists →
        (listServiceStep domFocused s (.focusOp w)).lastFocusedWidget = some w) := by
  refine ⟨?_, rfl, ?_⟩
  · intro hd hr
    unfold ListService.register at hr
    split at hr
    · exact absurd hr (by simp)
    · cases hr
      simp [hd]
  · intro hw
    simp [listServiceStep, mem_imp_any_beq hw, ListService.focusGained]

/-- Claim C6 witness: registering widget 4 while it reports DOM focus makes
it last focused at once, and a later focus event from registered widget 7
overwrites the reference. -/
theorem listService_focus_c6_witness :
    ({ lists := [4], lastFocusedWidget := some 4 } : ListServiceState).lastFocusedWidget
        = some 4
    ∧ (listServiceStep (fun _ => true)
        { lists := [4, 7], lastFocusedWidget := some 4 }
        (.focusOp 7)).lastFocusedWidget = some 7 :=
  ⟨(listService_focus_c6 (fun _ => true) 4 ListServiceState.initial
      { lists := [4], lastFocusedWidget := some 4 }).1 rfl rfl,
   (listService_focus_c6 (fun _ => true) 7
      { lists := [4, 7], lastFocusedWidget := some 4 } ListServiceState.initial).2.2
      (by simp)⟩

/-- Claim C7: invoking a registration's disposal handle removes the
widget's entry from the registry and never clears the last-focused
reference — if the disposed widget was last focused, the accessor still
returns it — and once the widget is no longer registered its focus
subscription is gone, so a focus event from it no longer reaches the
service. -/
theorem listService_dispose_c7 (domFocused : Nat → Bool) (w : Nat)
    (s : ListServiceState) :
    (ListService.disposeRegistration w s).lastFocusedWidget = s.lastFocusedWidget
    ∧ (s.lists.Nodup → w ∈ s.lists →
        w ∉ (ListService.disposeRegistration w s).lists)
    ∧ (s.lastFocusedWidget = some w →
        (ListService.disposeRegistration w s).lastFocusedWidget = some w)
    ∧ (w ∉ s.lists → listServiceStep domFocused s (.focusOp w) = s) := by
  refine ⟨?_, ?_, ?_, ?_⟩
  · unfold ListService.disposeRegistration
    split <;> rfl
  · intro hnd hw
    unfold ListService.disposeRegistration
    rw [if_pos (mem_imp_any_beq hw)]
    simp [List.Nodup.mem_erase_iff hnd]
  · intro h
    unfold ListService.disposeRegistration
    split <;> simpa
  · intro hw
    simp [listServiceStep, not_mem_imp_any_beq hw]

/-- Claim C7 witness: disposing widget 2 while it is last focused removes
it from the registry yet leaves it observably last focused. -/
theorem listService_dispose_c7_witness :
    (ListService.disposeRegistration 2
        { lists := [1, 2], lastFocusedWidget := some 2 }).lastFocusedWidget = some 2
    ∧ 2 ∉ (ListService.disposeRegistration 2
        { lists := [1, 2], lastFocusedWidget := some 2 }).lists :=
  ⟨(listService_dispose_c7 (fun _ => false) 2
      { lists := [1, 2], lastFocusedWidget := some 2 }).2.2.1 rfl,
   (listService_dispose_c7 (fun _ => false) 2
      { lists := [1, 2], lastFocusedWidget := some 2 }).2.1 (by simp) (by simp)⟩

end ListServiceSpec
